import Mathlib

/-!
Verification of the voice-command interpreter in
`src/components/VoiceListener.tsx` (smooth-cart-voice).

The component is shallowly embedded: every Gemini ("Gateway") call made by a
handler is represented by an `Except Unit String` field of an `Env` record
(`.error ()` = transport failure, `.ok s` = the raw response text), JSON
parsing of a structured response is represented by a parse function
`String → Option _` (`none` = `JSON.parse` threw), and all side effects
(filter mutations, navigation, DOM clicks, profile writes) are collected as an
explicit list of `Effect` values instead of being performed.
-/

namespace SmoothCart

/-- JavaScript truthiness of a string value (`""` is falsy). -/
def truthyS (s : String) : Bool := s != ""

/-- JavaScript truthiness of a possibly-undefined string (`undefined` and `""` falsy). -/
def truthyO (o : Option String) : Bool :=
  match o with
  | some s => truthyS s
  | none => false

/-- JavaScript truthiness of a possibly-undefined integer (`undefined` and `0` falsy). -/
def truthyI (o : Option Int) : Bool :=
  match o with
  | some n => n != 0
  | none => false

/-- JavaScript `a || b` where `a` is a possibly-undefined string:
the fallback `b` is taken when `a` is `undefined` or the empty string. -/
def jsOr (a : Option String) (b : String) : String :=
  match a with
  | some s => if s = "" then b else s
  | none => b

/-- Test whether `pat` occurs at the start of `hay` (character-list level). -/
def isStartOf : List Char → List Char → Bool
  | [], _ => true
  | _ :: _, [] => false
  | p :: ps, h :: hs => p == h && isStartOf ps hs

/-- Test whether `pat` occurs somewhere in `hay` (character-list level). -/
def containsL (hay pat : List Char) : Bool :=
  match hay with
  | [] => pat.isEmpty
  | _ :: t => isStartOf pat hay || containsL t pat

/-- Replace the first occurrence of `pat` in the subject by `repl`
(character-list level; an empty `pat` matches at the start, as in
JavaScript). -/
def replaceFirstL (pat repl : List Char) : List Char → List Char
  | [] => if pat.isEmpty then repl else []
  | h :: t =>
    if isStartOf pat (h :: t) then repl ++ (h :: t).drop pat.length
    else h :: replaceFirstL pat repl t

/-- Split a character list on a separator character, JavaScript
`split(sep)`-style (adjacent separators produce empty pieces). -/
def splitOnChar (sep : Char) : List Char → List (List Char)
  | [] => [[]]
  | c :: t =>
    let r := splitOnChar sep t
    if c == sep then [] :: r
    else
      match r with
      | [] => [[c]]
      | h :: rest => (c :: h) :: rest

/-- JavaScript `s.toLowerCase()`. -/
def toLowerJS (s : String) : String := ⟨s.data.map Char.toLower⟩

/-- JavaScript `s.trim()`. -/
def trimJS (s : String) : String :=
  ⟨((s.data.dropWhile Char.isWhitespace).reverse.dropWhile Char.isWhitespace).reverse⟩

/-- JavaScript `s.includes(pat)`: substring containment test. -/
def strContains (s pat : String) : Bool :=
  containsL s.data pat.data

/-- JavaScript `s.replace(pat, repl)` for a plain-string pattern:
replaces only the first occurrence of `pat`. -/
def replaceFirst (s pat repl : String) : String :=
  ⟨replaceFirstL pat.data repl.data s.data⟩

/-- JavaScript `s.startsWith(pat)`. -/
def startsWithJS (s pat : String) : Bool :=
  isStartOf pat.data s.data

/-- JavaScript `s.split(sep)` for a one-character separator. -/
def splitJS (s : String) (sep : Char) : List String :=
  (splitOnChar sep s.data).map (fun l => ⟨l⟩)

/-- The markdown code-fence stripping applied to every structured Gateway
response before `JSON.parse`:
`response.replace("```json", "").replace("```", "")`. -/
def cleanResponse (s : String) : String :=
  replaceFirst (replaceFirst s "```json" "") "```" ""

/-- The case-insensitive reference map built from a catalog dimension list:
`Object.fromEntries(catalog.map(c => [c.toLowerCase(), c]))` indexed at `key`.
With `Object.fromEntries`, a later entry overwrites an earlier one with the
same key, so the lookup finds the last catalog entry whose lowercasing is
`key`. -/
def mapLookup (catalog : List String) (key : String) : Option String :=
  catalog.reverse.find? (fun c => toLowerJS c == key)

/-- The value normalization used by both `interpretFilterCommand`
(`colorMap[c.toLowerCase()] || c`) and `handleRemoveFilters`
(`mappingFn(val) || val` with `mappingFn = val => colorMap[val.toLowerCase()]`). -/
def normalizeValue (catalog : List String) (raw : String) : String :=
  jsOr (mapLookup catalog (toLowerJS raw)) raw

lemma toLowerJS_eq_empty {s : String} (h : toLowerJS s = "") : s = "" := by
  have h2 : (toLowerJS s).data = [] := congrArg String.data h
  unfold toLowerJS at h2
  exact String.ext (List.map_eq_nil_iff.mp h2)

lemma mapLookup_some {catalog : List String} {key c : String}
    (h : mapLookup catalog key = some c) : c ∈ catalog ∧ toLowerJS c = key := by
  unfold mapLookup at h
  refine ⟨List.mem_reverse.mp (List.mem_of_find?_eq_some h), ?_⟩
  have := List.find?_some h
  simpa using this

lemma mapLookup_none {catalog : List String} {key : String}
    (h : mapLookup catalog key = none) : ∀ c ∈ catalog, toLowerJS c ≠ key := by
  intro c hc
  unfold mapLookup at h
  have := List.find?_eq_none.mp h c (List.mem_reverse.mpr hc)
  simpa using this

lemma mapLookup_isSome {catalog : List String} {key : String}
    (h : ∃ c ∈ catalog, toLowerJS c = key) : ∃ c, mapLookup catalog key = some c := by
  rcases h with ⟨c, hc, hk⟩
  have : (catalog.reverse.find? (fun c => toLowerJS c == key)).isSome := by
    rw [List.find?_isSome]
    exact ⟨c, List.mem_reverse.mpr hc, by simpa using hk⟩
  rcases Option.isSome_iff_exists.mp this with ⟨c', hc'⟩
  exact ⟨c', hc'⟩

lemma normalizeValue_match {catalog : List String} {raw : String}
    (h : ∃ c ∈ catalog, toLowerJS c = toLowerJS raw) :
    normalizeValue catalog raw ∈ catalog ∧
      toLowerJS (normalizeValue catalog raw) = toLowerJS raw := by
  rcases mapLookup_isSome h with ⟨c, hc⟩
  rcases mapLookup_some hc with ⟨hmem, hlow⟩
  unfold normalizeValue jsOr
  rw [hc]
  by_cases hce : c = ""
  · subst hce
    simp only [if_pos rfl]
    have h0 : toLowerJS "" = "" := rfl
    have hraw : raw = "" := toLowerJS_eq_empty (hlow.symm.trans h0)
    subst hraw
    exact ⟨hmem, rfl⟩
  · simp only [if_neg hce]
    exact ⟨hmem, hlow⟩

lemma normalizeValue_noMatch {catalog : List String} {raw : String}
    (h : ∀ c ∈ catalog, toLowerJS c ≠ toLowerJS raw) :
    normalizeValue catalog raw = raw := by
  unfold normalizeValue
  cases hc : mapLookup catalog (toLowerJS raw) with
  | none => rfl
  | some c =>
    rcases mapLookup_some hc with ⟨hmem, hlow⟩
    exact absurd hlow (h c hmem)

lemma normalizeValue_idem (catalog : List String) (v : String) :
    normalizeValue catalog (normalizeValue catalog v) = normalizeValue catalog v := by
  cases hc : mapLookup catalog (toLowerJS v) with
  | none =>
    have hv : normalizeValue catalog v = v := by
      unfold normalizeValue; rw [hc]; rfl
    rw [hv]; exact hv
  | some c =>
    rcases mapLookup_some hc with ⟨_, hlow⟩
    by_cases hce : c = ""
    · have hv : normalizeValue catalog v = v := by
        unfold normalizeValue jsOr; rw [hc]; subst hce; simp
      rw [hv]; exact hv
    · have hv : normalizeValue catalog v = c := by
        unfold normalizeValue jsOr; rw [hc]; simp [hce]
      rw [hv]
      unfold normalizeValue jsOr
      rw [hlow, hc]
      simp [hce]

/-- The `filterOptions` catalog record from `@/data/products`, kept abstract:
one canonical value list per filter dimension. -/
structure FilterOptions where
  colors : List String
  sizes : List String
  materials : List String
  genders : List String
  brands : List String
  subCategories : List String

/-- A catalog product as consumed by the component
(`products` from `@/data/products`). -/
structure Product where
  id : String
  name : String
  description : String
  sizes : List String
  deriving DecidableEq

/-- The stored user profile (`UserInfo` interface): four required personal
fields and four optional payment fields. -/
structure UserInfo where
  name : String
  email : String
  address : String
  phone : String
  cardName : Option String
  cardNumber : Option String
  expiryDate : Option String
  cvv : Option String
  deriving DecidableEq

/-- The JSON object shape produced by the filter-command prompt; `none` fields
model keys absent from the classifier's JSON. -/
structure ParsedFilters where
  colors : Option (List String)
  sizes : Option (List String)
  materials : Option (List String)
  genders : Option (List String)
  brands : Option (List String)
  subCategories : Option (List String)
  price : Option (Int × Int)
  deriving DecidableEq

/-- The `normalizedFilters` sparse record assembled by
`interpretFilterCommand` before calling `updateFilters`. -/
structure NormalizedFilters where
  colors : Option (List String)
  sizes : Option (List String)
  materials : Option (List String)
  genders : Option (List String)
  brands : Option (List String)
  subCategories : Option (List String)
  price : Option (Int × Int)
  deriving DecidableEq

/-- The emptiness test: `Object.keys(normalizedFilters).length > 0` is false exactly when no
dimension branch fired. -/
def NormalizedFilters.isEmpty (nf : NormalizedFilters) : Bool :=
  nf.colors.isNone && nf.sizes.isNone && nf.materials.isNone &&
    nf.genders.isNone && nf.brands.isNone && nf.subCategories.isNone &&
    nf.price.isNone

/-- The JSON object shape produced by the navigation-command prompt. -/
structure NavResponse where
  action : Option String
  deriving DecidableEq

/-- The JSON object shape produced by the user-info-update prompt. -/
structure UserInfoResponse where
  isUserInfoUpdate : Bool
  name : Option String
  email : Option String
  address : Option String
  phone : Option String
  cardName : Option String
  cardNumber : Option String
  expiryDate : Option String
  cvv : Option String
  deriving DecidableEq

/-- The JSON object shape produced by the product-action prompt. -/
structure ProductAction where
  action : Option String
  size : Option String
  quantity : Option Int
  deriving DecidableEq

/-- The JSON object shape produced by the remove-filter prompt. -/
structure ParsedRemoval where
  isRemoveFilter : Bool
  colors : Option (List String)
  sizes : Option (List String)
  materials : Option (List String)
  genders : Option (List String)
  brands : Option (List String)
  subCategories : Option (List String)
  price : Bool
  deriving DecidableEq

/-- An external side effect performed by the component: mutations of the
filter selection, navigation, DOM clicks, product-page context and the stored
user profile. -/
inductive Effect where
  | updateFilters (nf : NormalizedFilters)
  | clearAllFilters
  | removeFilter (dim : String) (vals : Option (List String))
  | navigate (path : String)
  | historyBack
  | clickSubmit
  | clickAddToCart
  | setSelectedSize (s : String)
  | setQuantity (n : Int)
  | updateUserInfo (u : UserInfo)
  | notifyUserInfoUpdated (fields : List String)
  deriving DecidableEq

/-- The environment a single dispatch runs in: one Gateway outcome per
possible Gemini call (`.error ()` = transport failure, `.ok s` = raw response
text), one parse function per structured response shape (`none` = `JSON.parse`
threw), the current route, the stored profile snapshot and which DOM buttons
exist. -/
structure Env where
  gwPrimary : Except Unit String
  gwNav : Except Unit String
  gwOrder : Except Unit String
  gwUserInfo : Except Unit String
  gwCart : Except Unit String
  gwProductAction : Except Unit String
  gwProductDetail : Except Unit String
  gwRemove : Except Unit String
  gwCategory : Except Unit String
  gwFilter : Except Unit String
  gwInterpret : Except Unit String
  parseNav : String → Option NavResponse
  parseUserInfo : String → Option UserInfoResponse
  parseProductAction : String → Option ProductAction
  parseFilters : String → Option ParsedFilters
  parseRemoval : String → Option ParsedRemoval
  currentPath : String
  userInfo : UserInfo
  submitButtonExists : Bool
  addToCartButtonExists : Bool

/-- Result of one boolean-returning intent handler: the returned `handled`
flag, the side effects performed, and the Gateway calls issued. -/
structure HOut where
  handled : Bool
  effects : List Effect
  gwCalls : List String
  deriving DecidableEq

/-- Result of `interpretFilterCommand`, whose return value is a string
(`"filters_updated"` or `"unknown"`) rather than a boolean. -/
structure FOut where
  result : String
  effects : List Effect
  gwCalls : List String
  deriving DecidableEq

/-- One dimension branch of `interpretFilterCommand`:
`if (parsed.colors && parsed.colors.length > 0) normalized.colors = parsed.colors.map(c => colorMap[c.toLowerCase()] || c)`. -/
def normList (catalog : List String) (f : Option (List String)) : Option (List String) :=
  match f with
  | some l => if 0 < l.length then some (l.map (normalizeValue catalog)) else none
  | none => none

/-- The `normalizedFilters` object built by `interpretFilterCommand` from a
successfully parsed filter JSON. -/
def normalizeFilters (fo : FilterOptions) (pf : ParsedFilters) : NormalizedFilters where
  colors := normList fo.colors pf.colors
  sizes := normList fo.sizes pf.sizes
  materials := normList fo.materials pf.materials
  genders := normList fo.genders pf.genders
  brands := normList fo.brands pf.brands
  subCategories := normList fo.subCategories pf.subCategories
  price := pf.price

/-- The source function `interpretFilterCommand`: issues the filter prompt, fence-strips and
parses the response, normalizes each listed dimension, and calls
`updateFilters` only when at least one dimension was produced; every failure
path returns `"unknown"` with no mutation. -/
def interpretFilterCommand (fo : FilterOptions) (env : Env) : FOut :=
  match env.gwFilter with
  | .error _ => ⟨"unknown", [], ["filterCommand"]⟩
  | .ok resp =>
    match env.parseFilters (trimJS (cleanResponse resp)) with
    | none => ⟨"unknown", [], ["filterCommand"]⟩
    | some pf =>
      let nf := normalizeFilters fo pf
      if nf.isEmpty then ⟨"unknown", [], ["filterCommand"]⟩
      else ⟨"filters_updated", [Effect.updateFilters nf], ["filterCommand"]⟩

/-- The source function `classifyPrimaryIntent`: the master classifier's trimmed raw text is used
verbatim as the intent tag; a transport failure defaults to
`"general_command"`. -/
def classifyPrimaryIntent (gw : Except Unit String) : String :=
  match gw with
  | .ok resp => trimJS resp
  | .error _ => "general_command"

/-- The source function `handleNavigationCommand`: parses the action JSON and handles `"back"` (history
back) and `"home"` (navigate to `/`); anything else is not handled. -/
def handleNavigationCommand (env : Env) : HOut :=
  match env.gwNav with
  | .error _ => ⟨false, [], ["navigationCommand"]⟩
  | .ok resp =>
    match env.parseNav (trimJS (cleanResponse resp)) with
    | none => ⟨false, [], ["navigationCommand"]⟩
    | some r =>
      if r.action = some "back" then ⟨true, [Effect.historyBack], ["navigationCommand"]⟩
      else if r.action = some "home" then ⟨true, [Effect.navigate "/"], ["navigationCommand"]⟩
      else ⟨false, [], ["navigationCommand"]⟩

/-- The presence check `userInfo.cardNumber && userInfo.expiryDate && userInfo.cvv &&
userInfo.name && userInfo.email && userInfo.address`. -/
def hasRequiredInfo (u : UserInfo) : Bool :=
  truthyO u.cardNumber && truthyO u.expiryDate && truthyO u.cvv &&
    truthyS u.name && truthyS u.email && truthyS u.address

/-- The source function `handleOrderCompletion`: when the yes/no prompt answers `"yes"`, submit on
the payment page with a complete profile (falling back to direct navigation to
`/confirmation` when no submit button exists), otherwise navigate to
`/payment`; a non-`"yes"` answer or a failed call is not handled. -/
def handleOrderCompletion (env : Env) : HOut :=
  match env.gwOrder with
  | .error _ => ⟨false, [], ["orderCompletion"]⟩
  | .ok resp =>
    if toLowerJS (trimJS resp) = "yes" then
      if env.currentPath = "/payment" && hasRequiredInfo env.userInfo then
        if env.submitButtonExists then ⟨true, [Effect.clickSubmit], ["orderCompletion"]⟩
        else ⟨true, [Effect.navigate "/confirmation"], ["orderCompletion"]⟩
      else ⟨true, [Effect.navigate "/payment"], ["orderCompletion"]⟩
    else ⟨false, [], ["orderCompletion"]⟩

/-- The field-by-field merge in `handleUserInfoUpdate`: each truthy response
field overwrites the stored one and appends its label to `updatedFields`, in
source order. -/
def applyUserInfoResponse (cur : UserInfo) (r : UserInfoResponse) : UserInfo × List String :=
  let s0 : UserInfo × List String := (cur, [])
  let s1 := if truthyO r.name then ({ s0.1 with name := r.name.getD "" }, s0.2 ++ ["name"]) else s0
  let s2 := if truthyO r.email then ({ s1.1 with email := r.email.getD "" }, s1.2 ++ ["email"]) else s1
  let s3 := if truthyO r.address then ({ s2.1 with address := r.address.getD "" }, s2.2 ++ ["address"]) else s2
  let s4 := if truthyO r.phone then ({ s3.1 with phone := r.phone.getD "" }, s3.2 ++ ["phone"]) else s3
  let s5 := if truthyO r.cardName then ({ s4.1 with cardName := r.cardName }, s4.2 ++ ["card name"]) else s4
  let s6 := if truthyO r.cardNumber then ({ s5.1 with cardNumber := r.cardNumber }, s5.2 ++ ["card number"]) else s5
  let s7 := if truthyO r.expiryDate then ({ s6.1 with expiryDate := r.expiryDate }, s6.2 ++ ["card expiry date"]) else s6
  let s8 := if truthyO r.cvv then ({ s7.1 with cvv := r.cvv }, s7.2 ++ ["CVV"]) else s7
  s8

/-- The source function `handleUserInfoUpdate`: merges only the fields the classifier returned
into the stored profile and notifies listeners; handled only when
`isUserInfoUpdate` is set and at least one field actually changed. -/
def handleUserInfoUpdate (env : Env) : HOut :=
  match env.gwUserInfo with
  | .error _ => ⟨false, [], ["userInfoUpdate"]⟩
  | .ok resp =>
    match env.parseUserInfo (cleanResponse resp) with
    | none => ⟨false, [], ["userInfoUpdate"]⟩
    | some r =>
      if r.isUserInfoUpdate then
        let uf := applyUserInfoResponse env.userInfo r
        if 0 < uf.2.length then
          ⟨true, [Effect.updateUserInfo uf.1, Effect.notifyUserInfoUpdated uf.2], ["userInfoUpdate"]⟩
        else ⟨false, [], ["userInfoUpdate"]⟩
      else ⟨false, [], ["userInfoUpdate"]⟩

/-- The source function `handleCartNavigation`: `"yes"` navigates to `/cart`. -/
def handleCartNavigation (env : Env) : HOut :=
  match env.gwCart with
  | .error _ => ⟨false, [], ["cartNavigation"]⟩
  | .ok resp =>
    if toLowerJS (trimJS resp) = "yes" then ⟨true, [Effect.navigate "/cart"], ["cartNavigation"]⟩
    else ⟨false, [], ["cartNavigation"]⟩

/-- The source function `handleCategoryNavigation`: `"gym"`, `"yoga"` and `"running"` navigate to
their category routes. -/
def handleCategoryNavigation (env : Env) : HOut :=
  match env.gwCategory with
  | .error _ => ⟨false, [], ["categoryNavigation"]⟩
  | .ok resp =>
    let r := toLowerJS (trimJS resp)
    if r = "gym" then ⟨true, [Effect.navigate "/products/gym"], ["categoryNavigation"]⟩
    else if r = "yoga" then ⟨true, [Effect.navigate "/products/yoga"], ["categoryNavigation"]⟩
    else if r = "running" then ⟨true, [Effect.navigate "/products/jogging"], ["categoryNavigation"]⟩
    else ⟨false, [], ["categoryNavigation"]⟩

/-- The size branch of `handleProductActions`: fires only for action tag
`"size"` with a truthy size, and selects a product size by case-insensitive
comparison; `none` means the branch falls through. -/
def sizeMatchResult (product : Product) (pa : ProductAction) : Option String :=
  if pa.action = some "size" && truthyO pa.size then
    product.sizes.find? (fun sz => toLowerJS sz == toLowerJS (pa.size.getD ""))
  else none

/-- The quantity branch of `handleProductActions`: fires only for action tag
`"quantity"` with a truthy quantity that is a positive number; `none` means
the branch falls through. -/
def quantityResult (pa : ProductAction) : Option Int :=
  if pa.action = some "quantity" && truthyI pa.quantity then
    (if 0 < pa.quantity.getD 0 then some (pa.quantity.getD 0) else none)
  else none

/-- The source function `handleProductActions`: on a product page with a known product, parses the
product-action JSON; `"none"` is not handled; a matched size or a positive
quantity performs its context update; `"addToCart"` clicks the button when one
exists; every other parsed tag falls through every branch to the final
`return true` with no effect. -/
def handleProductActions (prods : List Product) (env : Env) : HOut :=
  if !startsWithJS env.currentPath "/product/" then ⟨false, [], []⟩
  else
    let productId := (splitJS env.currentPath '/').getLastD ""
    match prods.find? (fun p => p.id == productId) with
    | none => ⟨false, [], []⟩
    | some product =>
      match env.gwProductAction with
      | .error _ => ⟨false, [], ["productAction"]⟩
      | .ok resp =>
        match env.parseProductAction (trimJS (cleanResponse resp)) with
        | none => ⟨false, [], ["productAction"]⟩
        | some pa =>
          if pa.action = some "none" then ⟨false, [], ["productAction"]⟩
          else
            match sizeMatchResult product pa with
            | some matchedSize => ⟨true, [Effect.setSelectedSize matchedSize], ["productAction"]⟩
            | none =>
              match quantityResult pa with
              | some n => ⟨true, [Effect.setQuantity n], ["productAction"]⟩
              | none =>
                if pa.action = some "addToCart" && env.addToCartButtonExists then
                  ⟨true, [Effect.clickAddToCart], ["productAction"]⟩
                else ⟨true, [], ["productAction"]⟩

/-- The keyword fallback of `handleProductDetailNavigation`: for each response
word in order, the first product whose lowercased name contains it wins. -/
def keywordFind (prods : List Product) (words : List String) : Option Product :=
  words.findSome? (fun w => prods.find? (fun p => strContains (toLowerJS p.name) w))

/-- The three escalating product-resolution strategies of
`handleProductDetailNavigation`: exact lowercased name match, then substring
containment in either direction, then keyword search over the response's
words longer than 3 characters. -/
def findProduct (prods : List Product) (productName : String) : Option Product :=
  match prods.find? (fun p => toLowerJS p.name == productName) with
  | some p => some p
  | none =>
    match prods.find? (fun p =>
        strContains (toLowerJS p.name) productName || strContains productName (toLowerJS p.name)) with
    | some p => some p
    | none => keywordFind prods ((splitJS productName ' ').filter (fun w => 3 < w.length))

/-- The source function `handleProductDetailNavigation`: unless the classifier answers `"none"`,
resolves the returned product reference via `findProduct` and navigates to the
matched product's detail page; no match is not handled. -/
def handleProductDetailNavigation (prods : List Product) (env : Env) : HOut :=
  match env.gwProductDetail with
  | .error _ => ⟨false, [], ["productDetailNavigation"]⟩
  | .ok resp =>
    let response := trimJS resp
    if toLowerJS response ≠ "none" then
      match findProduct prods (toLowerJS response) with
      | some p => ⟨true, [Effect.navigate ("/product/" ++ p.id)], ["productDetailNavigation"]⟩
      | none => ⟨false, [], ["productDetailNavigation"]⟩
    else ⟨false, [], ["productDetailNavigation"]⟩

/-- One `processFilterRemoval` call of `handleRemoveFilters`: a present,
nonempty value list is normalized and passed to `removeFilter`. -/
def removeDim (catalog : List String) (dim : String) (vals : Option (List String)) : List Effect :=
  match vals with
  | some l =>
    if 0 < l.length then [Effect.removeFilter dim (some (l.map (normalizeValue catalog)))]
    else []
  | none => []

/-- The source function `handleRemoveFilters`: parses the removal JSON, requires
`isRemoveFilter`, removes each listed dimension's normalized values plus the
whole price range when `price === true`, and is handled only when something
was removed. -/
def handleRemoveFilters (fo : FilterOptions) (env : Env) : HOut :=
  match env.gwRemove with
  | .error _ => ⟨false, [], ["removeFilterCommand"]⟩
  | .ok resp =>
    match env.parseRemoval (trimJS (cleanResponse resp)) with
    | none => ⟨false, [], ["removeFilterCommand"]⟩
    | some pr =>
      if !pr.isRemoveFilter then ⟨false, [], ["removeFilterCommand"]⟩
      else
        let effs :=
          removeDim fo.colors "colors" pr.colors ++
          removeDim fo.sizes "sizes" pr.sizes ++
          removeDim fo.materials "materials" pr.materials ++
          removeDim fo.genders "genders" pr.genders ++
          removeDim fo.brands "brands" pr.brands ++
          removeDim fo.subCategories "subCategories" pr.subCategories ++
          (if pr.price then [Effect.removeFilter "price" none] else [])
        if effs.isEmpty then ⟨false, [], ["removeFilterCommand"]⟩
        else ⟨true, effs, ["removeFilterCommand"]⟩

/-- The fixed `clearFilterPhrases` list scanned by `interpretCommand`. -/
def clearFilterPhrases : List String :=
  ["clear filter", "reset filter", "remove filter", "clear all filter",
   "reset all filter", "remove all filter", "clear the filter", "start over"]

/-- The source function `interpretCommand`: the deterministic substring fast path for
filter-clearing phrases short-circuits to `"clearFilters"` before any Gateway
call; otherwise the function-selection prompt's trimmed answer is returned
(`"unknown"` on transport failure). -/
def interpretCommand (transcript : String) (env : Env) : String × List String :=
  if clearFilterPhrases.any (fun phrase => strContains transcript phrase) then
    ("clearFilters", [])
  else
    match env.gwInterpret with
    | .ok resp => (trimJS resp, ["interpretCommand"])
    | .error _ => ("unknown", ["interpretCommand"])

/-- The `"checkout"` case of the general-command switch: same payment-page
logic as `handleOrderCompletion`, except that an incomplete profile on the
payment page only asks the user to finish (no navigation). -/
def checkoutEffects (env : Env) : List Effect :=
  if env.currentPath = "/payment" then
    if hasRequiredInfo env.userInfo then
      if env.submitButtonExists then [Effect.clickSubmit]
      else [Effect.navigate "/confirmation"]
    else []
  else [Effect.navigate "/payment"]

/-- The inner switch of the `general_command` dispatch case: each recognized
action name performs its effects and marks the command handled; an
unrecognized action leaves `handled` false. -/
def runGeneralAction (env : Env) (action : String) : Bool × List Effect :=
  if action = "showGymClothes" then (true, [Effect.navigate "/products/gym"])
  else if action = "showYogaEquipment" then (true, [Effect.navigate "/products/yoga"])
  else if action = "goToCart" then (true, [Effect.navigate "/cart"])
  else if action = "checkout" then (true, checkoutEffects env)
  else if action = "showRunningGear" then (true, [Effect.navigate "/products/jogging"])
  else if action = "clearFilters" then (true, [Effect.clearAllFilters])
  else (false, [])

/-- The second-tier routing switch of `handleVoiceCommand`, as a function of
the already-classified intent tag: returns the aggregated `handled` flag, the
side effects performed and the second-tier Gateway calls issued. -/
def dispatchCase (fo : FilterOptions) (prods : List Product) (env : Env)
    (command : String) (intent : String) : Bool × List Effect × List String :=
  if intent = "navigation" then
    let h := handleNavigationCommand env; (h.handled, h.effects, h.gwCalls)
  else if intent = "order_completion" then
    let h := handleOrderCompletion env; (h.handled, h.effects, h.gwCalls)
  else if intent = "user_info" then
    let h := handleUserInfoUpdate env; (h.handled, h.effects, h.gwCalls)
  else if intent = "cart" then
    let h := handleCartNavigation env; (h.handled, h.effects, h.gwCalls)
  else if intent = "product_action" then
    let h := handleProductActions prods env; (h.handled, h.effects, h.gwCalls)
  else if intent = "product_navigation" then
    let h := handleProductDetailNavigation prods env; (h.handled, h.effects, h.gwCalls)
  else if intent = "remove_filter" then
    let h := handleRemoveFilters fo env; (h.handled, h.effects, h.gwCalls)
  else if intent = "category_navigation" then
    let c := handleCategoryNavigation env
    if c.handled then
      let f := interpretFilterCommand fo env
      (true, c.effects ++ f.effects, c.gwCalls ++ f.gwCalls)
    else (false, c.effects, c.gwCalls)
  else if intent = "apply_filter" then
    let f := interpretFilterCommand fo env
    (f.result = "filters_updated", f.effects, f.gwCalls)
  else if intent = "clear_filters" then (true, [Effect.clearAllFilters], [])
  else if intent = "general_command" then
    let r := interpretCommand command env
    let g := runGeneralAction env r.1
    (g.1, g.2, r.2)
  else (false, [], [])

/-- Outcome of one full `handleVoiceCommand` dispatch: the classified intent,
the aggregated `handled` flag, all side effects, all Gateway calls (the
first-tier master-classifier call followed by any second-tier calls) and the
success flag of the final outcome entry written to the action log. -/
structure DispatchResult where
  intent : String
  handled : Bool
  effects : List Effect
  gwCalls : List String
  logSuccess : Bool
  deriving DecidableEq

/-- The source function `handleVoiceCommand`: two-tier dispatch — classify the primary intent,
route through `dispatchCase`, and log success exactly when some pathway
reported the command handled. -/
def handleVoiceCommand (fo : FilterOptions) (prods : List Product) (env : Env)
    (command : String) : DispatchResult :=
  let intent := classifyPrimaryIntent env.gwPrimary
  let r := dispatchCase fo prods env command intent
  ⟨intent, r.1, r.2.1, "masterIntentClassifier" :: r.2.2, r.1⟩

/-- The eleven intent tags that have a dispatch case in `handleVoiceCommand`. -/
def knownIntents : List String :=
  ["navigation", "order_completion", "user_info", "cart", "product_action",
   "product_navigation", "remove_filter", "category_navigation", "apply_filter",
   "clear_filters", "general_command"]

/-- The error-counter update performed by `logAction`: a success resets
`consecutiveErrors` to zero, a failure increments it by one. -/
def logStep (consecutiveErrors : Nat) (success : Bool) : Nat :=
  if success then 0 else consecutiveErrors + 1

/-- The `consecutiveErrors` counter resulting from a sequence of logged
action outcomes, starting from the initial value `0`. -/
def runLog (events : List Bool) : Nat :=
  events.foldl logStep 0

/-- The source function `handleRecovery`: tears the listening session down and resets the counter
exactly when `consecutiveErrors >= 3`; returns the new counter value and
whether a restart was triggered. -/
def handleRecovery (consecutiveErrors : Nat) : Nat × Bool :=
  if 3 ≤ consecutiveErrors then (0, true) else (consecutiveErrors, false)

/-- An empty stored profile. -/
def emptyUserInfo : UserInfo := ⟨"", "", "", "", none, none, none, none⟩

/-- A fully filled stored profile (all six checkout presence-fields truthy). -/
def fullUserInfo : UserInfo :=
  ⟨"Ada Lovelace", "ada@example.com", "1 Main St", "555",
    some "Ada Lovelace", some "4111111111111111", some "12/27", some "123"⟩

/-- A baseline dispatch environment: every Gateway call fails with a
transport error, no structured response parses, the route is `/`, the profile
is empty and no DOM buttons exist. Concrete scenarios are built from it by
field updates. -/
def baseEnv : Env where
  gwPrimary := .error ()
  gwNav := .error ()
  gwOrder := .error ()
  gwUserInfo := .error ()
  gwCart := .error ()
  gwProductAction := .error ()
  gwProductDetail := .error ()
  gwRemove := .error ()
  gwCategory := .error ()
  gwFilter := .error ()
  gwInterpret := .error ()
  parseNav := fun _ => none
  parseUserInfo := fun _ => none
  parseProductAction := fun _ => none
  parseFilters := fun _ => none
  parseRemoval := fun _ => none
  currentPath := "/"
  userInfo := emptyUserInfo
  submitButtonExists := false
  addToCartButtonExists := false

lemma runLog_concat (events : List Bool) (b : Bool) :
    runLog (events ++ [b]) = logStep (runLog events) b := by
  unfold runLog
  rw [List.foldl_append]
  rfl

lemma runLog_trailing_failures :
    ∀ (events : List Bool) (k : Nat), k ≤ runLog events →
      ∃ trace, events = trace ++ List.replicate k false := by
  intro events
  induction events using List.reverseRecOn with
  | nil =>
    intro k hk
    have hk0 : k = 0 := Nat.le_zero.mp hk
    exact ⟨[], by simp [hk0]⟩
  | append_singleton xs b ih =>
    intro k hk
    cases k with
    | zero => exact ⟨xs ++ [b], by simp⟩
    | succ k' =>
      rw [runLog_concat] at hk
      cases b with
      | true =>
        rw [show logStep (runLog xs) true = 0 from rfl] at hk
        omega
      | false =>
        rw [show logStep (runLog xs) false = runLog xs + 1 from rfl] at hk
        have hk' : k' ≤ runLog xs := by omega
        rcases ih k' hk' with ⟨trace, htrace⟩
        refine ⟨trace, ?_⟩
        rw [htrace, List.replicate_succ']
        simp [List.append_assoc]

lemma navigation_failClosed (env : Env) :
    (handleNavigationCommand env).handled = false →
      (handleNavigationCommand env).effects = [] := by
  unfold handleNavigationCommand
  cases env.gwNav with
  | error e => intro _; rfl
  | ok resp =>
    dsimp only
    cases env.parseNav (trimJS (cleanResponse resp)) with
    | none => intro _; rfl
    | some r =>
      dsimp only
      split_ifs <;> intro h <;> simp_all

lemma order_failClosed (env : Env) :
    (handleOrderCompletion env).handled = false →
      (handleOrderCompletion env).effects = [] := by
  unfold handleOrderCompletion
  cases env.gwOrder with
  | error e => intro _; rfl
  | ok resp =>
    dsimp only
    split_ifs <;> intro h <;> simp_all

lemma userInfo_failClosed (env : Env) :
    (handleUserInfoUpdate env).handled = false →
      (handleUserInfoUpdate env).effects = [] := by
  unfold handleUserInfoUpdate
  cases env.gwUserInfo with
  | error e => intro _; rfl
  | ok resp =>
    dsimp only
    cases env.parseUserInfo (cleanResponse resp) with
    | none => intro _; rfl
    | some r =>
      dsimp only
      split_ifs <;> intro h <;> simp_all

lemma cart_failClosed (env : Env) :
    (handleCartNavigation env).handled = false →
      (handleCartNavigation env).effects = [] := by
  unfold handleCartNavigation
  cases env.gwCart with
  | error e => intro _; rfl
  | ok resp =>
    dsimp only
    split_ifs <;> intro h <;> simp_all

lemma category_failClosed (env : Env) :
    (handleCategoryNavigation env).handled = false →
      (handleCategoryNavigation env).effects = [] := by
  unfold handleCategoryNavigation
  cases env.gwCategory with
  | error e => intro _; rfl
  | ok resp =>
    dsimp only
    split_ifs <;> intro h <;> simp_all

lemma productActions_failClosed (prods : List Product) (env : Env) :
    (handleProductActions prods env).handled = false →
      (handleProductActions prods env).effects = [] := by
  unfold handleProductActions
  split_ifs with hpath
  · intro _; rfl
  · dsimp only
    cases prods.find? (fun p => p.id == (splitJS env.currentPath '/').getLastD "") with
    | none => intro _; rfl
    | some product =>
      dsimp only
      cases env.gwProductAction with
      | error e => intro _; rfl
      | ok resp =>
        dsimp only
        cases env.parseProductAction (trimJS (cleanResponse resp)) with
        | none => intro _; rfl
        | some pa =>
          dsimp only
          by_cases h1 : pa.action = some "none"
          · rw [if_pos h1]; intro _; rfl
          · rw [if_neg h1]
            cases sizeMatchResult product pa with
            | some m => intro h; simp_all
            | none =>
              dsimp only
              cases quantityResult pa with
              | some n => intro h; simp_all
              | none =>
                dsimp only
                split_ifs <;> intro h <;> simp_all

lemma productDetail_failClosed (prods : List Product) (env : Env) :
    (handleProductDetailNavigation prods env).handled = false →
      (handleProductDetailNavigation prods env).effects = [] := by
  unfold handleProductDetailNavigation
  cases env.gwProductDetail with
  | error e => intro _; rfl
  | ok resp =>
    dsimp only
    split_ifs with h1
    · cases findProduct prods (toLowerJS (trimJS resp)) with
      | some p => intro h; simp_all
      | none => intro _; rfl
    · intro _; rfl

lemma removeFilters_failClosed (fo : FilterOptions) (env : Env) :
    (handleRemoveFilters fo env).handled = false →
      (handleRemoveFilters fo env).effects = [] := by
  unfold handleRemoveFilters
  cases env.gwRemove with
  | error e => intro _; rfl
  | ok resp =>
    dsimp only
    cases env.parseRemoval (trimJS (cleanResponse resp)) with
    | none => intro _; rfl
    | some pr =>
      dsimp only
      split_ifs <;> intro h <;> simp_all

lemma interpretFilter_failClosed (fo : FilterOptions) (env : Env) :
    (interpretFilterCommand fo env).result ≠ "filters_updated" →
      (interpretFilterCommand fo env).effects = [] := by
  unfold interpretFilterCommand
  cases env.gwFilter with
  | error e => intro _; rfl
  | ok resp =>
    dsimp only
    cases env.parseFilters (trimJS (cleanResponse resp)) with
    | none => intro _; rfl
    | some pf =>
      dsimp only
      split_ifs <;> intro h <;> simp_all

lemma runGeneralAction_failClosed (env : Env) (action : String) :
    (runGeneralAction env action).1 = false → (runGeneralAction env action).2 = [] := by
  unfold runGeneralAction
  split_ifs <;> intro h <;> simp_all

lemma dispatchCase_failClosed (fo : FilterOptions) (prods : List Product)
    (env : Env) (command : String) (intent : String) :
    (dispatchCase fo prods env command intent).1 = false →
      (dispatchCase fo prods env command intent).2.1 = [] := by
  unfold dispatchCase
  by_cases h1 : intent = "navigation"
  · simp only [h1, if_pos rfl]
    exact navigation_failClosed env
  rw [if_neg h1]
  by_cases h2 : intent = "order_completion"
  · simp only [h2, if_pos rfl]
    exact order_failClosed env
  rw [if_neg h2]
  by_cases h3 : intent = "user_info"
  · simp only [h3, if_pos rfl]
    exact userInfo_failClosed env
  rw [if_neg h3]
  by_cases h4 : intent = "cart"
  · simp only [h4, if_pos rfl]
    exact cart_failClosed env
  rw [if_neg h4]
  by_cases h5 : intent = "product_action"
  · simp only [h5, if_pos rfl]
    exact productActions_failClosed prods env
  rw [if_neg h5]
  by_cases h6 : intent = "product_navigation"
  · simp only [h6, if_pos rfl]
    exact productDetail_failClosed prods env
  rw [if_neg h6]
  by_cases h7 : intent = "remove_filter"
  · simp only [h7, if_pos rfl]
    exact removeFilters_failClosed fo env
  rw [if_neg h7]
  by_cases h8 : intent = "category_navigation"
  · simp only [h8, if_pos rfl]
    by_cases hc : (handleCategoryNavigation env).handled
    · simp [hc]
    · simp only [Bool.not_eq_true] at hc
      simp [hc, category_failClosed env hc]
  rw [if_neg h8]
  by_cases h9 : intent = "apply_filter"
  · simp only [h9, if_pos rfl]
    intro h
    have hne : ¬(interpretFilterCommand fo env).result = "filters_updated" := by
      intro he
      simp [he] at h
    simpa using interpretFilter_failClosed fo env hne
  rw [if_neg h9]
  by_cases h10 : intent = "clear_filters"
  · simp only [h10, if_pos rfl]
    intro h
    simp at h
  rw [if_neg h10]
  by_cases h11 : intent = "general_command"
  · simp only [h11, if_pos rfl]
    exact runGeneralAction_failClosed env (interpretCommand command env).1
  rw [if_neg h11]
  intro _
  rfl

/-- An empty filter-options catalog, for concrete scenarios where the
catalog content is irrelevant. -/
def fo0 : FilterOptions := ⟨[], [], [], [], [], []⟩

/-- C1: for every utterance, if the Gateway call issued by
`interpretFilterCommand` fails (transport error) or its response cannot be
parsed as JSON after fence stripping, `interpretFilterCommand` returns the
string `"unknown"` and performs no side effect — in particular
`updateFilters` is never called on that path. -/
theorem C1_filter_interpreter_fails_closed (fo : FilterOptions) (env : Env)
    (h : env.gwFilter = .error () ∨
      ∃ resp, env.gwFilter = .ok resp ∧
        env.parseFilters (trimJS (cleanResponse resp)) = none) :
    interpretFilterCommand fo env = ⟨"unknown", [], ["filterCommand"]⟩ := by
  unfold interpretFilterCommand
  rcases h with h | ⟨resp, hok, hparse⟩
  · rw [h]
  · rw [hok]
    dsimp only
    rw [hparse]

/-- Witness for C1: a concrete environment whose filter response does not
parse. -/
theorem C1_witness :
    interpretFilterCommand fo0 { baseEnv with gwFilter := .ok "not json" } =
      ⟨"unknown", [], ["filterCommand"]⟩ :=
  C1_filter_interpreter_fails_closed fo0 { baseEnv with gwFilter := .ok "not json" }
    (Or.inr ⟨"not json", rfl, rfl⟩)

/-- C2: for every dimension catalog and raw value, normalization returns a
catalog entry in its original casing when the lowercased raw value equals a
lowercased catalog entry, and otherwise returns the raw value unchanged; it
is total and maps lists elementwise without dropping values; and it is
exactly the normalization applied by `interpretFilterCommand`
(via `normalizeFilters`) and by `handleRemoveFilters` (via `removeDim`)
before removal values are matched against applied filters. -/
theorem C2_normalization_contract (catalog : List String) (raw : String) :
    ((∃ c ∈ catalog, toLowerJS c = toLowerJS raw) →
      normalizeValue catalog raw ∈ catalog ∧
        toLowerJS (normalizeValue catalog raw) = toLowerJS raw) ∧
    ((∀ c ∈ catalog, toLowerJS c ≠ toLowerJS raw) →
      normalizeValue catalog raw = raw) ∧
    (∀ l : List String, (l.map (normalizeValue catalog)).length = l.length) ∧
    (∀ (fo : FilterOptions) (pf : ParsedFilters) (l : List String), 0 < l.length →
      (pf.colors = some l →
        (normalizeFilters fo pf).colors = some (l.map (normalizeValue fo.colors))) ∧
      (pf.sizes = some l →
        (normalizeFilters fo pf).sizes = some (l.map (normalizeValue fo.sizes))) ∧
      (pf.materials = some l →
        (normalizeFilters fo pf).materials = some (l.map (normalizeValue fo.materials))) ∧
      (pf.genders = some l →
        (normalizeFilters fo pf).genders = some (l.map (normalizeValue fo.genders))) ∧
      (pf.brands = some l →
        (normalizeFilters fo pf).brands = some (l.map (normalizeValue fo.brands))) ∧
      (pf.subCategories = some l →
        (normalizeFilters fo pf).subCategories =
          some (l.map (normalizeValue fo.subCategories)))) ∧
    (∀ (dim : String) (l : List String), 0 < l.length →
      removeDim catalog dim (some l) =
        [Effect.removeFilter dim (some (l.map (normalizeValue catalog)))]) := by
  have hnl : ∀ (cat : List String) (f : Option (List String)) (l : List String),
      0 < l.length → f = some l → normList cat f = some (l.map (normalizeValue cat)) := by
    intro cat f l hl hf
    rw [hf]
    unfold normList
    dsimp only
    rw [if_pos hl]
  refine ⟨fun h => normalizeValue_match h, fun h => normalizeValue_noMatch h, ?_, ?_, ?_⟩
  · intro l
    simp
  · intro fo pf l hl
    exact ⟨hnl fo.colors pf.colors l hl, hnl fo.sizes pf.sizes l hl,
      hnl fo.materials pf.materials l hl, hnl fo.genders pf.genders l hl,
      hnl fo.brands pf.brands l hl, hnl fo.subCategories pf.subCategories l hl⟩
  · intro dim l hl
    unfold removeDim
    dsimp only
    rw [if_pos hl]

/-- Witness for C2: `"RED"` is normalized to the catalog entry `"Red"`. -/
theorem C2_witness :
    normalizeValue ["Red", "Blue"] "RED" ∈ ["Red", "Blue"] ∧
      toLowerJS (normalizeValue ["Red", "Blue"] "RED") = toLowerJS "RED" :=
  (C2_normalization_contract ["Red", "Blue"] "RED").1 ⟨"Red", by decide, by decide⟩

/-- C3: the `consecutiveErrors` counter is reset to `0` by every successful
`logAction` and incremented by exactly `1` by every failed one; the
listening-session restart is triggered by `handleRecovery` exactly when the
counter has reached the threshold `3`, which can only happen after three
consecutive failures with no intervening success; and after the restart the
counter is `0`. -/
theorem C3_recovery_counter (n : Nat) (events : List Bool) :
    logStep n true = 0 ∧
    logStep n false = n + 1 ∧
    ((handleRecovery n).2 = true ↔ 3 ≤ n) ∧
    ((handleRecovery n).2 = true → (handleRecovery n).1 = 0) ∧
    (3 ≤ runLog events → ∃ trace, events = trace ++ [false, false, false]) := by
  refine ⟨rfl, rfl, ?_, ?_, ?_⟩
  · unfold handleRecovery
    split_ifs with h
    · simpa using h
    · simpa using h
  · unfold handleRecovery
    split_ifs with h
    · intro _
      rfl
    · intro hc
      simp at hc
  · intro h3
    rcases runLog_trailing_failures events 3 h3 with ⟨trace, htrace⟩
    exact ⟨trace, htrace⟩

/-- Witness for C3: at counter value 3 the restart fires and resets to 0, and
a concrete log with three trailing failures decomposes as required. -/
theorem C3_witness :
    (handleRecovery 3).2 = true ∧ (handleRecovery 3).1 = 0 ∧
      ∃ trace, [true, false, false, false] = trace ++ [false, false, false] :=
  ⟨(C3_recovery_counter 3 []).2.2.1.mpr (by decide),
   (C3_recovery_counter 3 []).2.2.2.1 ((C3_recovery_counter 3 []).2.2.1.mpr (by decide)),
   (C3_recovery_counter 3 [true, false, false, false]).2.2.2.2 (by decide)⟩

/-- C4: whenever the pathway selected by the primary intent reports
not-handled (`handled = false` at the end of the dispatch switch) —
including when the classifier returns a category outside the known set,
which matches no dispatch case — `handleVoiceCommand` logs a failure outcome
and performs no side effect at all: no default action is ever applied. -/
theorem C4_unhandled_is_frame (fo : FilterOptions) (prods : List Product)
    (env : Env) (command : String) :
    ((handleVoiceCommand fo prods env command).handled = false →
      (handleVoiceCommand fo prods env command).effects = [] ∧
      (handleVoiceCommand fo prods env command).logSuccess = false) ∧
    (classifyPrimaryIntent env.gwPrimary ∉ knownIntents →
      (handleVoiceCommand fo prods env command).handled = false) := by
  constructor
  · intro h
    have he := dispatchCase_failClosed fo prods env command (classifyPrimaryIntent env.gwPrimary) h
    exact ⟨he, h⟩
  · intro hni
    show (dispatchCase fo prods env command (classifyPrimaryIntent env.gwPrimary)).1 = false
    simp only [knownIntents, List.mem_cons, List.not_mem_nil, or_false, not_or] at hni
    obtain ⟨n1, n2, n3, n4, n5, n6, n7, n8, n9, n10, n11⟩ := hni
    unfold dispatchCase
    rw [if_neg n1, if_neg n2, if_neg n3, if_neg n4, if_neg n5, if_neg n6, if_neg n7,
      if_neg n8, if_neg n9, if_neg n10, if_neg n11]

/-- An environment whose primary classifier answers a category outside the
known set. -/
def envBogus : Env := { baseEnv with gwPrimary := .ok "bogus_intent" }

/-- Witness for C4: a concrete dispatch with an out-of-set category is
unhandled, effect-free and logged as a failure. -/
theorem C4_witness :
    (handleVoiceCommand fo0 [] envBogus "hello").handled = false ∧
    (handleVoiceCommand fo0 [] envBogus "hello").effects = [] ∧
    (handleVoiceCommand fo0 [] envBogus "hello").logSuccess = false := by
  have h2 := (C4_unhandled_is_frame fo0 [] envBogus "hello").2 (by decide)
  have h1 := (C4_unhandled_is_frame fo0 [] envBogus "hello").1 h2
  exact ⟨h2, h1.1, h1.2⟩

/-- C5: when the order-completion prompt confirms completion language
(`"yes"`): on the payment page with all six presence-fields set the handler
clicks the submit control when one exists and otherwise navigates directly to
the confirmation page, returning `true`; when not on the payment page or with
any field missing it instead navigates to the payment page. -/
theorem C5_order_completion (env : Env) (resp : String)
    (hok : env.gwOrder = .ok resp) (hyes : toLowerJS (trimJS resp) = "yes") :
    (env.currentPath = "/payment" → hasRequiredInfo env.userInfo = true →
      (env.submitButtonExists = true →
        handleOrderCompletion env = ⟨true, [Effect.clickSubmit], ["orderCompletion"]⟩) ∧
      (env.submitButtonExists = false →
        handleOrderCompletion env =
          ⟨true, [Effect.navigate "/confirmation"], ["orderCompletion"]⟩)) ∧
    ((env.currentPath ≠ "/payment" ∨ hasRequiredInfo env.userInfo = false) →
      handleOrderCompletion env = ⟨true, [Effect.navigate "/payment"], ["orderCompletion"]⟩) := by
  unfold handleOrderCompletion
  rw [hok]
  dsimp only
  rw [if_pos hyes]
  constructor
  · intro hpay hreq
    rw [if_pos (by rw [hpay, hreq]; simp)]
    constructor
    · intro hsb
      rw [if_pos hsb]
    · intro hsb
      rw [hsb]
      simp
  · intro hor
    have hC : ¬((env.currentPath = "/payment" && hasRequiredInfo env.userInfo) = true) := by
      rcases hor with h | h <;> simp [h]
    rw [if_neg hC]

/-- A concrete payment-page scenario with a complete profile and a submit
button. -/
def envC5 : Env :=
  { baseEnv with
      gwOrder := .ok "Yes"
      currentPath := "/payment"
      userInfo := fullUserInfo
      submitButtonExists := true }

/-- Witness for C5: on the payment page with a complete profile, completion
language triggers the submit click and no navigation fallback. -/
theorem C5_witness :
    handleOrderCompletion envC5 = ⟨true, [Effect.clickSubmit], ["orderCompletion"]⟩ :=
  ((C5_order_completion envC5 "Yes" rfl (by decide)).1 (by decide) (by decide)).1 (by decide)

/-- C6: any utterance containing one of the fixed filter-clearing phrases as
a substring makes `interpretCommand` return `"clearFilters"` without issuing
any Gateway call, regardless of what the Gateway would have answered — the
deterministic fast path takes precedence over classifier-based
interpretation. -/
theorem C6_clear_filter_fast_path (transcript : String) (env : Env)
    (h : ∃ phrase ∈ clearFilterPhrases, strContains transcript phrase = true) :
    interpretCommand transcript env = ("clearFilters", []) := by
  unfold interpretCommand
  rcases h with ⟨p, hp, hc⟩
  have hany : clearFilterPhrases.any (fun phrase => strContains transcript phrase) = true :=
    List.any_eq_true.mpr ⟨p, hp, hc⟩
  rw [if_pos hany]

/-- Witness for C6: `"please clear all filters"` takes the fast path even
though the Gateway call would fail. -/
theorem C6_witness :
    interpretCommand "please clear all filters" baseEnv = ("clearFilters", []) :=
  C6_clear_filter_fast_path "please clear all filters" baseEnv
    ⟨"clear all filter", by decide, by decide⟩

/-- A one-product catalog whose name shares no whole word with the spoken
reference used against it. -/
def prodSoft : Product := ⟨"1", "supersoft pad", "", []⟩

/-- Environment in which the product-detail classifier answers
`"cool soft"`. -/
def envC7 : Env := { baseEnv with gwProductDetail := .ok "cool soft" }

/-- The claim's third strategy, defined from the claim's own words for
comparison with the source's `findProduct`: keyword overlap using catalog
name words longer than 3 characters — some word of the catalog product's
name longer than 3 characters occurs in the spoken reference. -/
def claimedKeywordOverlap (p : Product) (reference : String) : Bool :=
  ((splitJS (toLowerJS p.name) ' ').filter (fun w => 3 < w.length)).any
    (fun w => strContains reference w)

/-- Some product matches the reference under one of the three strategies as
the claim states them (exact, substring either direction, catalog-name
keyword overlap). -/
def claimedStrategyMatch (prods : List Product) (reference : String) : Bool :=
  prods.any (fun p =>
    toLowerJS p.name == reference ||
    (strContains (toLowerJS p.name) reference || strContains reference (toLowerJS p.name)) ||
    claimedKeywordOverlap p reference)

/-- C7 counterexample: on the reference `"cool soft"` against the catalog
`["supersoft pad"]`, none of the claim's three strategies matches (no exact
match, no substring containment, and no catalog-name word longer than 3
characters occurs in the reference), yet the code navigates to the product:
its third strategy actually takes the words of the spoken reference longer
than 3 characters and substring-matches them inside catalog names
(`"soft"` occurs inside `"supersoft"`). -/
theorem C7_counterexample :
    handleProductDetailNavigation [prodSoft] envC7 =
      ⟨true, [Effect.navigate "/product/1"], ["productDetailNavigation"]⟩ ∧
    claimedStrategyMatch [prodSoft] (toLowerJS (trimJS "cool soft")) = false := by
  constructor <;> decide

/-- C7 amended: product-detail navigation resolves the classifier-returned
reference by three escalating strategies in priority order — (1) exact
case-insensitive name match, (2) substring containment in either direction,
(3) keyword search taking the words of the spoken reference longer than
3 characters, in order, and matching each as a substring of catalog names —
where the first match wins; a `"none"` answer or no match is not handled and
performs no navigation. -/
theorem C7_amended_product_resolution (prods : List Product) (env : Env) (resp : String)
    (hok : env.gwProductDetail = .ok resp) :
    (toLowerJS (trimJS resp) = "none" →
      handleProductDetailNavigation prods env = ⟨false, [], ["productDetailNavigation"]⟩) ∧
    (findProduct prods (toLowerJS (trimJS resp)) = none →
      handleProductDetailNavigation prods env = ⟨false, [], ["productDetailNavigation"]⟩) ∧
    (∀ p, toLowerJS (trimJS resp) ≠ "none" →
      findProduct prods (toLowerJS (trimJS resp)) = some p →
      handleProductDetailNavigation prods env =
        ⟨true, [Effect.navigate ("/product/" ++ p.id)], ["productDetailNavigation"]⟩) ∧
    (∀ name p, prods.find? (fun q => toLowerJS q.name == name) = some p →
      findProduct prods name = some p) ∧
    (∀ name p, prods.find? (fun q => toLowerJS q.name == name) = none →
      prods.find? (fun q => strContains (toLowerJS q.name) name ||
        strContains name (toLowerJS q.name)) = some p →
      findProduct prods name = some p) ∧
    (∀ name, prods.find? (fun q => toLowerJS q.name == name) = none →
      prods.find? (fun q => strContains (toLowerJS q.name) name ||
        strContains name (toLowerJS q.name)) = none →
      findProduct prods name =
        keywordFind prods ((splitJS name ' ').filter (fun w => 3 < w.length))) := by
  refine ⟨?_, ?_, ?_, ?_, ?_, ?_⟩
  · intro hn
    unfold handleProductDetailNavigation
    rw [hok]
    dsimp only
    rw [if_neg (by simp [hn])]
  · intro hfind
    unfold handleProductDetailNavigation
    rw [hok]
    dsimp only
    by_cases hn : toLowerJS (trimJS resp) = "none"
    · rw [if_neg (by simp [hn])]
    · rw [if_pos hn, hfind]
  · intro p hn hfind
    unfold handleProductDetailNavigation
    rw [hok]
    dsimp only
    rw [if_pos hn, hfind]
  · intro name p hexact
    unfold findProduct
    rw [hexact]
  · intro name p hexact hsub
    unfold findProduct
    rw [hexact]
    dsimp only
    rw [hsub]
  · intro name hexact hsub
    unfold findProduct
    rw [hexact]
    dsimp only
    rw [hsub]

/-- Witness for C7 (amended): the code's resolution at the counterexample
input, derived through the amended theorem. -/
theorem C7_amended_witness :
    handleProductDetailNavigation [prodSoft] envC7 =
      ⟨true, [Effect.navigate "/product/1"], ["productDetailNavigation"]⟩ :=
  (C7_amended_product_resolution [prodSoft] envC7 "cool soft" rfl).2.2.1 prodSoft
    (by decide) (by decide)

/-- A product page catalog entry for the C8 scenarios. -/
def prodShirt : Product := ⟨"p1", "Tech Shirt", "d", ["M", "L"]⟩

/-- Environment whose product-action response parses to the unrecognized tag
`"discombobulate"`. -/
def envC8unknown : Env :=
  { baseEnv with
      currentPath := "/product/p1"
      gwProductAction := .ok "resp"
      parseProductAction := fun _ => some ⟨some "discombobulate", none, none⟩ }

/-- The same environment with the recognized tag `"none"` instead. -/
def envC8none : Env :=
  { baseEnv with
      currentPath := "/product/p1"
      gwProductAction := .ok "resp"
      parseProductAction := fun _ => some ⟨some "none", none, none⟩ }

/-- C8 counterexample: an unrecognized tag performs no state mutation but is
reported as handled (`true`), whereas the tag `"none"` is reported as not
handled (`false`) — so unknown tags are not treated exactly like `"none"`. -/
theorem C8_counterexample :
    handleProductActions [prodShirt] envC8unknown = ⟨true, [], ["productAction"]⟩ ∧
    handleProductActions [prodShirt] envC8none = ⟨false, [], ["productAction"]⟩ := by
  constructor <;> decide

/-- C8 amended: for every successfully parsed product-action result whose
tag is not one of the recognized tags (`"none"`, `"size"`, `"quantity"`,
`"addToCart"`), the interpreter performs no state mutation, but it reports
the command as handled (returns `true`) — unlike the tag `"none"`, for which
it reports not handled. -/
theorem C8_amended_unknown_tags (prods : List Product) (env : Env) (resp : String)
    (pa : ProductAction) (p : Product)
    (hpath : startsWithJS env.currentPath "/product/" = true)
    (hfind : prods.find? (fun q => q.id == (splitJS env.currentPath '/').getLastD "") = some p)
    (hok : env.gwProductAction = .ok resp)
    (hparse : env.parseProductAction (trimJS (cleanResponse resp)) = some pa)
    (h1 : pa.action ≠ some "none") (h2 : pa.action ≠ some "size")
    (h3 : pa.action ≠ some "quantity") (h4 : pa.action ≠ some "addToCart") :
    handleProductActions prods env = ⟨true, [], ["productAction"]⟩ := by
  have hs : sizeMatchResult p pa = none := by
    unfold sizeMatchResult
    rw [if_neg (by simp [h2])]
  have hq : quantityResult pa = none := by
    unfold quantityResult
    rw [if_neg (by simp [h3])]
  unfold handleProductActions
  rw [hpath]
  simp only [Bool.not_true, Bool.false_eq_true, if_false, hfind, hok, hparse, hs, hq]
  rw [if_neg h1, if_neg (by simp [h4])]

/-- Witness for C8 (amended) at the concrete unrecognized-tag environment. -/
theorem C8_amended_witness :
    handleProductActions [prodShirt] envC8unknown = ⟨true, [], ["productAction"]⟩ :=
  C8_amended_unknown_tags [prodShirt] envC8unknown "resp"
    ⟨some "discombobulate", none, none⟩ prodShirt
    (by decide) (by decide) rfl rfl (by decide) (by decide) (by decide) (by decide)

/-- C9: value normalization is idempotent: for every dimension catalog and
string, `normalizeValue` applied twice equals `normalizeValue` applied
once. -/
theorem C9_normalize_idempotent (catalog : List String) (v : String) :
    normalizeValue catalog (normalizeValue catalog v) = normalizeValue catalog v :=
  normalizeValue_idem catalog v

/-- C10: whenever the primary classifier returns `"clear_filters"`, the
dispatcher clears all filters unconditionally and reports the command
handled and logged as a success, with only the first-tier master-classifier
Gateway call and no second-tier call; the whole outcome is independent of
the utterance text, which is never examined. -/
theorem C10_clear_filters_unconditional (fo : FilterOptions) (prods : List Product)
    (env : Env) (command : String)
    (h : classifyPrimaryIntent env.gwPrimary = "clear_filters") :
    handleVoiceCommand fo prods env command =
      ⟨"clear_filters", true, [Effect.clearAllFilters], ["masterIntentClassifier"], true⟩ := by
  unfold handleVoiceCommand dispatchCase
  rw [h]
  simp

/-- Environment whose primary classifier answers `"clear_filters"` while
every other call fails. -/
def envC10 : Env := { baseEnv with gwPrimary := .ok "clear_filters" }

/-- Witness for C10 at a concrete environment and utterance. -/
theorem C10_witness :
    handleVoiceCommand fo0 [] envC10 "whatever" =
      ⟨"clear_filters", true, [Effect.clearAllFilters], ["masterIntentClassifier"], true⟩ :=
  C10_clear_filters_unconditional fo0 [] envC10 "whatever" (by decide)

end SmoothCart
